import Mathlib

/-!
Shallow embedding of the orchestrator backend's core logic: the entity filter
builder, the pagination response assembler, the generic CRUD gateway with its
integrity-error classifier, the deployment delete/update wrappers, and the
authorization mode dispatcher.  Each definition mirrors a Python function of
the repository (named in its doc comment); theorems at the end settle the
specification claims.
-/

namespace Orchestrator

/-! ## Character-list string helpers

Python string operations (regex search, split, strip, join) are modelled over
explicit character lists so that every definition evaluates inside the kernel.
-/

/-- Longest prefix of the list whose characters all fail the predicate
(used to model a regex `.+` that cannot cross a line boundary). -/
def takeUntil (p : Char → Bool) : List Char → List Char
  | [] => []
  | c :: cs => if p c then [] else c :: takeUntil p cs

/-- Locate the first occurrence of `marker` in `text` and return the remaining
characters after it, or `none` when the marker does not occur.  Models a regex
lookbehind such as `(?<=UNIQUE\sconstraint\sfailed:\s)`. -/
def afterMarker (marker : List Char) : List Char → Option (List Char)
  | [] => if marker = [] then some [] else none
  | c :: cs =>
    if marker.isPrefixOf (c :: cs) then some ((c :: cs).drop marker.length)
    else afterMarker marker cs

/-- Split a character list on a separator character; models Python
`str.split(sep)` for a one-character separator (always returns at least one,
possibly empty, chunk). -/
def splitOnChar (sep : Char) : List Char → List (List Char)
  | [] => [[]]
  | c :: cs =>
    match splitOnChar sep cs with
    | [] => [[c]]
    | w :: ws => if c = sep then [] :: w :: ws else (c :: w) :: ws

/-- Remove leading and trailing whitespace; models Python `str.strip()`. -/
def trimChars (cs : List Char) : List Char :=
  ((cs.dropWhile (fun c => c.isWhitespace)).reverse.dropWhile
    (fun c => c.isWhitespace)).reverse

/-- Join strings with a comma-space separator; models Python `", ".join(xs)`. -/
def joinCommaSpace : List String → String
  | [] => ""
  | [a] => a
  | a :: b :: rest => a ++ ", " ++ joinCommaSpace (b :: rest)

/-- Word boundary of the camel-case splitter in `orchestrator/utils.py`
(`split_camel_case`): split between a lowercase letter or digit and an
uppercase letter, or inside an uppercase run right before an uppercase letter
followed by a lowercase one. -/
def camelBoundary (prev curr : Char) (nxt : Option Char) : Bool :=
  ((prev.isLower || prev.isDigit) && curr.isUpper) ||
    ((prev.isUpper || prev.isDigit) && curr.isUpper &&
      (match nxt with
       | some n => n.isLower
       | none => false))

/-- Insert spaces at camel-case word boundaries. -/
def splitCamelChars : List Char → List Char
  | [] => []
  | [c] => [c]
  | a :: b :: rest =>
    if camelBoundary a b rest.head? then a :: ' ' :: splitCamelChars (b :: rest)
    else a :: splitCamelChars (b :: rest)

/-- The function `split_camel_case` of `orchestrator/utils.py`: split a camel
case string into words separated by spaces. -/
def split_camel_case (s : String) : String :=
  String.mk (splitCamelChars s.data)

/-! ## Python values and keyword-argument rows

The generic CRUD gateway passes entity attributes around as `**kwargs`
dictionaries.  They are modelled as association lists from attribute name to a
`PyVal`, the runtime values the repository actually stores or filters on.
Python `float` filter values behave exactly like `int` ones in
`_handle_generic_field`, so a single numeric constructor stands for both.
-/

/-- A Python runtime value as used by the repository's kwargs dictionaries:
`None`, strings, numbers (`int`/`float`), `uuid.UUID`, `datetime`, or an ORM
`User` object (passed for the `created_by`/`updated_by` relationships). -/
inductive PyVal
  | none
  | str (s : String)
  | int (n : Int)
  | uuid (u : Nat)
  | datetime (t : Int)
  | userObj (userId : Nat)
deriving DecidableEq, Repr

/-- A kwargs dictionary / database row: attribute name to value. -/
abbrev Row : Type := List (String × PyVal)

/-- Python `kwargs.get(k)`: the stored value, or `None` when the key is
absent. -/
def pyGet (r : Row) (k : String) : PyVal :=
  (List.lookup k r).getD PyVal.none

/-- Python `f"{v}"` rendering of a value inside an error message.  Only string
values are interpolated by the claims under verification; the rendering of the
other runtime types abbreviates CPython's `str()` output. -/
def pyStr : PyVal → String
  | PyVal.none => "None"
  | PyVal.str s => s
  | PyVal.int n => toString n
  | PyVal.uuid u => toString u
  | PyVal.datetime t => toString t
  | PyVal.userObj i => toString i

/-! ## Pagination response assembler (`orchestrator/v1/schemas.py`) -/

/-- Ceiling division on naturals; for `size > 0` this equals Python
`math.ceil(total_elements / size)` (the repository's float division is exact
for all representable row counts). -/
def ceil_div (a b : Nat) : Nat := (a + b - 1) / b

/-- The computed field `Pagination.total_pages`: the ceiling of
`total_elements / size`, forced to `1` when the ceiling is `0`. -/
def total_pages (size total_elements : Nat) : Nat :=
  let val := ceil_div total_elements size
  if val = 0 then 1 else val

/-- A resource URL: base part plus ordered query parameters, the view of
`fastapi.datastructures.URL` the link builder manipulates. -/
structure URLRecord where
  base : String
  query : List (String × String)
deriving DecidableEq, Repr

/-- Starlette `URL.remove_query_params(name)`: drop every query parameter with
that name. -/
def remove_query_params (u : URLRecord) (name : String) : URLRecord :=
  { u with query := u.query.filter (fun kv => kv.1 ≠ name) }

/-- Starlette `URL.include_query_params(name=val)`: set the parameter to a
single value.  In `PaginatedList.links` it is only invoked after
`remove_query_params("page")`, so the parameter is always appended. -/
def include_query_params (u : URLRecord) (name val : String) : URLRecord :=
  { u with query := u.query.filter (fun kv => kv.1 ≠ name) ++ [(name, val)] }

/-- The navigation links of a paginated response (`PageNavigation`). -/
structure PageNavigation where
  first : URLRecord
  prev : Option URLRecord
  next : Option URLRecord
  last : URLRecord
deriving DecidableEq, Repr

/-- The computed field `PaginatedList.links` of `orchestrator/v1/schemas.py`:
strip `page` from the resource URL, then build first/prev/next/last from the
current page number and the computed total page count. -/
def paginated_list_links (resource_url : URLRecord)
    (page_number page_size tot_items : Nat) : PageNavigation :=
  let url := remove_query_params resource_url "page"
  let tot := total_pages page_size tot_items
  { first := include_query_params url "page" (toString 1)
    prev :=
      if page_number > 1 then
        some (include_query_params url "page" (toString (page_number - 1)))
      else none
    next :=
      if page_number < tot then
        some (include_query_params url "page" (toString (page_number + 1)))
      else none
    last := include_query_params url "page" (toString tot) }

/-- The query parameters of a URL other than `page`. -/
def nonPageParams (u : URLRecord) : List (String × String) :=
  u.query.filter (fun kv => kv.1 ≠ "page")

/-- A navigation link agrees with the resource URL on everything except the
`page` parameter, which it carries exactly once with the given value. -/
def OnlyPageDiffers (orig link : URLRecord) (n : Nat) : Prop :=
  link.base = orig.base ∧
    nonPageParams link = nonPageParams orig ∧
    link.query.filter (fun kv => kv.1 = "page") = [("page", toString n)]

/-! ## Entity filter builder (`orchestrator/v1/crud.py`) -/

/-- One comparison predicate produced by the filter builder.  The column slot
is `Option String` because the source resolves columns with
`entity.__table__.c.get(k)`, which yields `None` for an unknown name. -/
inductive FilterPred
  | le (col : Option String) (v : PyVal)
  | ge (col : Option String) (v : PyVal)
  | eq (col : Option String) (v : PyVal)
  | icontains (col : Option String) (s : String)
deriving DecidableEq, Repr

/-- The `field_map` of `_handle_special_date_fields`: reserved range-filter key
to (timestamp column, is-less-or-equal flag). -/
def date_field_map : List (String × String × Bool) :=
  [("created_before", ("created_at", true)),
   ("created_after", ("created_at", false)),
   ("updated_before", ("updated_at", true)),
   ("updated_after", ("updated_at", false)),
   ("start_before", ("start_date", true)),
   ("start_after", ("start_date", false)),
   ("end_before", ("end_date", true)),
   ("end_after", ("end_date", false))]

/-- The column lookup `entity.__table__.c.get(k)` against a table's column
name list. -/
def col_get (columns : List String) (k : String) : Option String :=
  if k ∈ columns then some k else none

/-- The function `_handle_special_date_fields`: a reserved range key maps to a
`<=`/`>=` comparison against its timestamp column, built from whatever value
was supplied (the source does not test the value against `None`); any other
key yields no predicate. -/
def handle_special_date_fields (columns : List String) (k : String)
    (v : PyVal) : Option FilterPred :=
  match List.lookup k date_field_map with
  | some (field, isLe) =>
    some (if isLe then FilterPred.le (col_get columns field) v
      else FilterPred.ge (col_get columns field) v)
  | none => none

/-- Python `k.endswith(sfx)` on our character-list strings. -/
def str_ends_with (s sfx : String) : Bool :=
  decide (sfx.data.reverse.isPrefixOf s.data.reverse)

/-- Python `k[:-4]`, used to strip a `_lte`/`_gte` marker. -/
def drop_last4 (s : String) : String :=
  String.mk (s.data.take (s.data.length - 4))

/-- The function `_handle_generic_field`: UUID values compare by equality,
strings by case-insensitive containment, numbers by equality or by `<=`/`>=`
when the key ends in `_lte`/`_gte`; every other value type (including `None`
and `datetime`) produces no predicate. -/
def handle_generic_field (columns : List String) (k : String)
    (v : PyVal) : Option FilterPred :=
  match v with
  | PyVal.uuid _ => some (FilterPred.eq (col_get columns k) v)
  | PyVal.str s => some (FilterPred.icontains (col_get columns k) s)
  | PyVal.int _ =>
    if str_ends_with k "_lte" then
      some (FilterPred.le (col_get columns (drop_last4 k)) v)
    else if str_ends_with k "_gte" then
      some (FilterPred.ge (col_get columns (drop_last4 k)) v)
    else some (FilterPred.eq (col_get columns k) v)
  | PyVal.datetime _ => none
  | PyVal.none => none
  | PyVal.userObj _ => none

/-- The function `get_conditions`: for each kwarg in order, append the special
date predicate (when any) and then the generic predicate (when any). -/
def get_conditions (columns : List String) (kwargs : List (String × PyVal)) :
    List FilterPred :=
  match kwargs with
  | [] => []
  | (k, v) :: rest =>
    (handle_special_date_fields columns k v).toList ++
      (handle_generic_field columns k v).toList ++
        get_conditions columns rest

/-! ## Generic CRUD gateway (`orchestrator/v1/crud.py`) -/

/-- A classified storage failure: the error taxonomy the gateway raises.
`conflict` carries the human-readable detail message of `ConflictError`. -/
inductive DomainError
  | conflict (message : String)
  | notFound (message : String)
deriving DecidableEq, Repr

/-- The sqlite marker string the classifier's regex anchors on. -/
def unique_marker : String := "UNIQUE constraint failed: "

/-- The classifier's regex search
`(?<=UNIQUE\sconstraint\sfailed:\s).+(?=,|$)` over `error.args[0]`: when the
marker occurs, capture the non-empty remainder of that line (greedy `.+` with
an end anchor; the dot does not cross a newline). -/
def regex_unique_capture (msg : String) : Option String :=
  match afterMarker unique_marker.data msg.data with
  | some rest =>
    let cap := takeUntil (fun c => c = '\n') rest
    if cap = [] then none else some (String.mk cap)
  | none => none

/-- The function `raise_from_integrity_error` of `orchestrator/v1/crud.py`,
minus the `session.rollback()` side effect (applied by the caller model): when
the error message matches the UNIQUE-constraint regex, build a `ConflictError`
naming each violated `table.column` pair as `column=value` from the kwargs;
for every other message — the NOT NULL branch is commented out in the source —
no error is produced. -/
def raise_from_integrity_error (entityName : String) (kwargs : Row)
    (errMsg : String) : Option DomainError :=
  let element_str := split_camel_case entityName
  match regex_unique_capture errMsg with
  | some cap =>
    let attrs := (splitOnChar ',' cap.data).map
      (fun a => String.mk ((splitOnChar '.' (trimChars a)).getD 1 []))
    let rendered := attrs.map (fun attr => attr ++ "=" ++ pyStr (pyGet kwargs attr))
    some (DomainError.conflict
      (element_str ++ " with " ++ joinCommaSpace rendered ++ " already exists"))
  | none => none

/-- A database session: committed rows plus the pending rows of the open
transaction. -/
structure DBSession where
  committed : List Row
  pending : List Row
deriving DecidableEq, Repr

/-- SQLModel `session.rollback()`: discard the open transaction. -/
def session_rollback (s : DBSession) : DBSession := { s with pending := [] }

/-- SQLModel `session.add(row)`: stage a row in the open transaction. -/
def session_add (s : DBSession) (r : Row) : DBSession :=
  { s with pending := s.pending ++ [r] }

/-- The storage collaborator's constraint check: given the committed rows and
a candidate row, the sqlite error message of the violated constraint, or
`none` when the insert is admissible. -/
def IntegrityCheck : Type := List Row → Row → Option String

/-- Apply pending rows in order; the first constraint violation aborts the
whole transaction. -/
def commit_rows (check : IntegrityCheck) :
    List Row → List Row → Except String (List Row)
  | committed, [] => Except.ok committed
  | committed, r :: rs =>
    match check committed r with
    | some msg => Except.error msg
    | none => commit_rows check (committed ++ [r]) rs

/-- SQLModel `session.commit()`: atomically apply the pending rows, or raise
`IntegrityError` with the storage engine's message, leaving the transaction
open. -/
def session_commit (check : IntegrityCheck) (s : DBSession) :
    Option String × DBSession :=
  match commit_rows check s.committed s.pending with
  | Except.ok newCommitted =>
    (none, { committed := newCommitted, pending := [] })
  | Except.error msg => (some msg, s)

/-- What a call to `add_item` produces: the created entity, a raised domain
error, or `swallowed` — the Python function fell off the end of its `except`
block and returned `None` with no error at all. -/
inductive AddResult
  | created (row : Row)
  | raised (e : DomainError)
  | swallowed
deriving DecidableEq, Repr

/-- The function `add_item` of `orchestrator/v1/crud.py`: construct the entity
from kwargs, `session.add`, `session.commit`; on `IntegrityError` run
`raise_from_integrity_error`, whose first statement is `session.rollback()`. -/
def add_item (check : IntegrityCheck) (entityName : String) (sess : DBSession)
    (kwargs : Row) : AddResult × DBSession :=
  let staged := session_add sess kwargs
  match session_commit check staged with
  | (none, committedSess) => (AddResult.created kwargs, committedSess)
  | (some msg, dirtySess) =>
    let rolledBack := session_rollback dirtySess
    match raise_from_integrity_error entityName kwargs msg with
    | some e => (AddResult.raised e, rolledBack)
    | none => (AddResult.swallowed, rolledBack)

/-! ## Template creation (`orchestrator/v1/templates/crud.py`, `models.py`)

The `template` table (class `Template` of `orchestrator/v1/models.py`) has a
unique `hash_content` column and NOT NULL columns `content`, `hash_content`
and the creator/updater foreign keys; `name`, `version`,
`target_provider_type` and `tosca_definitions_version` are nullable.
-/

/-- Prefix sqlite3 errors carry in `IntegrityError.args[0]`. -/
def sqlite_err_header : String := "(sqlite3.IntegrityError) "

/-- NOT NULL columns of the `template` table that `add_template` fills from
its kwargs (the ORM maps the `created_by`/`updated_by` relationship kwargs to
the `_id` foreign-key columns). -/
def template_not_null_columns : List String :=
  ["content", "hash_content", "created_by_id", "updated_by_id"]

/-- The storage collaborator's behaviour on a `template` insert: report a NOT
NULL violation for a missing mandatory column, a primary-key violation for a
duplicate id, or a UNIQUE violation for a duplicate `hash_content`. -/
def template_insert_check : IntegrityCheck := fun committed row =>
  match template_not_null_columns.find? (fun c => pyGet row c = PyVal.none) with
  | some c => some (sqlite_err_header ++ "NOT NULL constraint failed: template." ++ c)
  | none =>
    if committed.any (fun r => pyGet r "id" == pyGet row "id") then
      some (sqlite_err_header ++ "UNIQUE constraint failed: template.id")
    else if committed.any
        (fun r => pyGet r "hash_content" == pyGet row "hash_content") then
      some (sqlite_err_header ++ "UNIQUE constraint failed: template.hash_content")
    else none

/-- The kwargs row `add_template` hands to `add_item`: the dump of a
`TemplateCreate` (validated `content` plus its computed fields — the
`hash_content` digest and the metadata parsed from the document) together with
the creator/updater users.  The SHA-256 digest and the YAML metadata parse are
external collaborators (`hashlib`, `pyyaml`), so the digest is a parameter
`hashFn` applied to the content and the metadata fields are parameters. -/
def template_row (hashFn : String → String) (newId : Nat) (content : String)
    (name version targetProviderType toscaVersion : Option String)
    (createdBy : Nat) : Row :=
  [("id", PyVal.uuid newId),
   ("content", PyVal.str content),
   ("hash_content", PyVal.str (hashFn content)),
   ("name", (name.map PyVal.str).getD PyVal.none),
   ("version", (version.map PyVal.str).getD PyVal.none),
   ("target_provider_type", (targetProviderType.map PyVal.str).getD PyVal.none),
   ("tosca_definitions_version", (toscaVersion.map PyVal.str).getD PyVal.none),
   ("created_by_id", PyVal.uuid createdBy),
   ("updated_by_id", PyVal.uuid createdBy)]

/-- The function `add_template` of `orchestrator/v1/templates/crud.py`:
`add_item` on the `Template` entity with the dumped create model and the
current user. -/
def add_template (hashFn : String → String) (sess : DBSession) (newId : Nat)
    (content : String)
    (name version targetProviderType toscaVersion : Option String)
    (createdBy : Nat) : AddResult × DBSession :=
  add_item template_insert_check "Template" sess
    (template_row hashFn newId content name version targetProviderType
      toscaVersion createdBy)

/-! ## Deployment delete (`orchestrator/v1/deployments/crud.py`, generic
`delete_item`) -/

/-- Columns of the `deployment` table (class `Deployment` of
`orchestrator/v1/models.py` with its mixin schemas). -/
def deployment_columns : List String :=
  ["id", "created_at", "updated_at", "template_id", "template_inputs",
   "user_group", "per_provider_max_retries", "max_providers", "timeout",
   "per_provider_timeout", "keep_last_attempt", "target_provider_name",
   "target_region_name", "user_group_issuer", "status", "template_outputs",
   "target_iaas_project", "im_infrastructure_id", "status_reason", "task",
   "created_by_id", "updated_by_id"]

/-- One conjunct of a `delete`/`select` where-clause as `delete_item` builds
it: a real SQL equality when `entity.__table__.c.get(k)` resolves a column, or
the plain Python `False` that `None == v` evaluates to when it does not. -/
inductive SqlCond
  | colEq (col : String) (v : PyVal)
  | pyFalse
deriving DecidableEq, Repr

/-- Build the equality conjunct for one kwarg, mirroring
`entity.__table__.c.get(k) == v`. -/
def build_eq_cond (columns : List String) (k : String) (v : PyVal) : SqlCond :=
  if k ∈ columns then SqlCond.colEq k v else SqlCond.pyFalse

/-- Whether a stored row satisfies a conjunct. -/
def eval_cond (r : Row) : SqlCond → Bool
  | SqlCond.colEq c v => pyGet r c == v
  | SqlCond.pyFalse => false

/-- The `item_id` alias handling shared by `get_item`/`delete_item`: pop
`item_id` and re-insert its value under `id`. -/
def rename_item_id (kwargs : Row) : Row :=
  match List.lookup "item_id" kwargs with
  | some v => kwargs.filter (fun kv => kv.1 ≠ "item_id") ++ [("id", v)]
  | none => kwargs

/-- Outcome of `delete_item`: either it returns normally or it re-raises a
classified integrity failure (its only `except` clause). -/
inductive DeleteOutcome
  | ok
  | raised (e : DomainError)
deriving DecidableEq, Repr

/-- The function `delete_item` of `orchestrator/v1/crud.py`: delete every row
matching the conjunction of per-kwarg equality conditions and commit.
Foreign-key enforcement on delete is not part of the modelled storage
contract, so the integrity branch is never taken here. -/
def delete_item (columns : List String) (store : List Row) (kwargs : Row) :
    DeleteOutcome × List Row :=
  let kwargs := rename_item_id kwargs
  let conds := kwargs.map (fun kv => build_eq_cond columns kv.1 kv.2)
  (DeleteOutcome.ok, store.filter (fun r => ! conds.all (eval_cond r)))

/-- The function `delete_deployment` of
`orchestrator/v1/deployments/crud.py`: with `force` it calls
`delete_item(session=…, entity=Deployment, item=deployment)` — so the only
filter kwarg is named `item` and holds the deployment's UUID — and without
`force` the body is a bare `...` (no operation). -/
def delete_deployment (store : List Row) (deployment : Nat) (force : Bool) :
    DeleteOutcome × List Row :=
  if force then
    delete_item deployment_columns store [("item", PyVal.uuid deployment)]
  else (DeleteOutcome.ok, store)

/-! ## Deployment update (`orchestrator/v1/deployments/crud.py`, generic
`update_item`) -/

/-- Lifecycle status enumeration (`DeploymentStatus`). -/
inductive DeploymentStatus
  | CREATE_COMPLETE | CREATE_FAILED | CREATE_IN_PROGRESS
  | DELETE_COMPLETE | DELETE_FAILED | DELETE_IN_PROGRESS
  | UNKNOWN
  | UPDATE_COMPLETE | UPDATE_FAILED | UPDATE_IN_PROGRESS
deriving DecidableEq, Repr

/-- Task-stage enumeration (`DeploymentTask`). -/
inductive DeploymentTask
  | template_validation | provider_filtering | providers_ranking
  | infrastructure_creation | resources_generated | resources_updating
deriving DecidableEq, Repr

/-- An authenticated ORM `User` (class `User` of `orchestrator/v1/models.py`)
restricted to the fields the deployment gateway reads. -/
structure UserRec where
  id : Nat
  issuer : String
deriving DecidableEq, Repr

/-- A loaded `Deployment` entity with the typed fields of
`orchestrator/v1/models.py` (UUIDs as `Nat`, timestamps as `Int`, the JSON
blobs as string maps). -/
structure Deployment where
  id : Nat
  created_at : Int
  updated_at : Int
  created_by_id : Nat
  updated_by_id : Nat
  template_id : Nat
  template_inputs : List (String × String)
  user_group : String
  per_provider_max_retries : Int
  max_providers : Option Int
  timeout : Int
  per_provider_timeout : Int
  keep_last_attempt : Bool
  target_provider_name : Option String
  target_region_name : Option String
  user_group_issuer : String
  status : DeploymentStatus
  template_outputs : Option (List (String × String))
  target_iaas_project : Option String
  im_infrastructure_id : Option String
  status_reason : Option String
  task : DeploymentTask
deriving DecidableEq, Repr

/-- The `DeploymentUpdate` PATCH schema: its only field is an optional
`user_group`. -/
structure DeploymentUpdate where
  user_group : Option String
deriving DecidableEq, Repr

/-- The kwargs-setting loop of `update_item` as invoked by
`update_deployment`: `update_deployment` always passes
`updated_by=updated_by` and adds `new_data.model_dump(exclude_none=True)`, so
the loop sets the updater relationship (hence the `updated_by_id` foreign
key) and, when present, `user_group`. -/
def update_item_setattrs (d : Deployment) (updated_by : UserRec)
    (new_data : DeploymentUpdate) : Deployment :=
  let d := { d with updated_by_id := updated_by.id }
  match new_data.user_group with
  | some g => { d with user_group := g }
  | none => d

/-- The function `update_deployment` composed with `update_item`: apply the
kwargs, then commit — which fires the `onupdate` hook of the `updated_at`
column (`UpdateTime` in `orchestrator/v1/schemas.py`), refreshing it to the
current time `now`. -/
def update_deployment (now : Int) (d : Deployment)
    (new_data : DeploymentUpdate) (updated_by : UserRec) : Deployment :=
  let d := update_item_setattrs d updated_by new_data
  { d with updated_at := now }

/-! ## Authorization mode dispatcher (`orchestrator/auth.py`,
`orchestrator/config.py`) -/

/-- The enumeration `AuthorizationMethodsEnum` of `orchestrator/config.py`:
its single member is `opa = "opa"`. -/
inductive AuthorizationMethodsEnum
  | opa
deriving DecidableEq, Repr

/-- Name-to-member table of the enumeration (member names coincide with their
string values here). -/
def authorization_methods_members : List (String × AuthorizationMethodsEnum) :=
  [("opa", AuthorizationMethodsEnum.opa)]

/-- Python attribute access `AuthorizationMethodsEnum.<attr>`: the member of
that name, or `none` — which in Python raises `AttributeError`. -/
def enum_member (attr : String) : Option AuthorizationMethodsEnum :=
  List.lookup attr authorization_methods_members

/-- Pydantic validation of the `AUTHZ_MODE` setting: a string is accepted
exactly when it is the value of some member. -/
def parse_authz_mode (s : String) : Option AuthorizationMethodsEnum :=
  (authorization_methods_members.find? (fun m => m.1 = s)).map (fun m => m.2)

/-- The application settings the dispatcher consults (`Settings.AUTHZ_MODE`;
the `ADMIN_EMAIL_LIST`/`ADMIN_GROUP_LIST` fields `auth.py` reads do not exist
on the `Settings` class). -/
structure SettingsModel where
  AUTHZ_MODE : Option AuthorizationMethodsEnum
deriving DecidableEq, Repr

/-- What the policy-engine call observes: an HTTP response with status code
and optional boolean `result` field, or a transport failure. -/
inductive OpaResult
  | response (statusCode : Nat) (result : Option Bool)
  | timeout
  | connectionError
deriving DecidableEq, Repr

/-- Outcome of an authorization dependency: it returns normally (access
granted), raises an `HTTPException` with a status and detail, would enter the
local claim check (`check_local_authorization`, unreachable because the enum
members it is guarded by do not exist), or crashes with Python
`AttributeError` on a missing enum member. -/
inductive AuthDecision
  | allowed
  | httpError (statusCode : Nat) (detail : String)
  | localClaimCheck
  | attributeError (missing : String)
deriving DecidableEq, Repr

/-- An ASCII single quote, kept out of string literals. -/
def squote : String := String.mk [Char.ofNat 39]

/-- The function `check_opa_authorization` of `orchestrator/auth.py`.  After
the `200` branch tests `result` the control flow continues: a falsy `result`
raises 401, any other status raises 500, and — the `200` branch having no
`return` — a truthy `result` falls through to the unconditional
unexpected-response-code 500 raise.  Transport failures raise the
not-reachable 500. -/
def check_opa_authorization : OpaResult → AuthDecision
  | OpaResult.timeout =>
    AuthDecision.httpError 500 "Authentication failed: OPA server is not reachable"
  | OpaResult.connectionError =>
    AuthDecision.httpError 500 "Authentication failed: OPA server is not reachable"
  | OpaResult.response st result =>
    if st = 200 && !(result.getD false) then
      AuthDecision.httpError 401 "Unauthorized to perform this operation"
    else if st = 400 then
      AuthDecision.httpError 500 "Authentication failed: Bad request sent to OPA server"
    else if st = 500 then
      AuthDecision.httpError 500 "Authentication failed: OPA server internal error"
    else
      AuthDecision.httpError 500
        ("Authentication failed: OPA unexpected response code " ++ squote ++
          toString st ++ squote)

/-- The dependency `has_admin_access` of `orchestrator/auth.py`: it first
evaluates `[AuthorizationMethodsEnum.email, AuthorizationMethodsEnum.groups]`
for its membership test — each a Python attribute access on the enum — then
routes to the local claim check or to the OPA check; with a mode matching
neither branch it returns `None`, i.e. allows.  `has_user_access` differs only
in the access level passed to the (unreachable) local check. -/
def has_admin_access (settings : SettingsModel) (opa : OpaResult) :
    AuthDecision :=
  match enum_member "email" with
  | none => AuthDecision.attributeError "email"
  | some emailMember =>
    match enum_member "groups" with
    | none => AuthDecision.attributeError "groups"
    | some groupsMember =>
      if settings.AUTHZ_MODE = some emailMember ∨
          settings.AUTHZ_MODE = some groupsMember then
        AuthDecision.localClaimCheck
      else if settings.AUTHZ_MODE = some AuthorizationMethodsEnum.opa then
        check_opa_authorization opa
      else AuthDecision.allowed

/-! ## Concrete fixtures used by counterexamples and witnesses -/

/-- A loaded deployment used as concrete input: its `updated_by_id` is `1`. -/
def exampleDeployment : Deployment :=
  { id := 10
    created_at := 100
    updated_at := 100
    created_by_id := 1
    updated_by_id := 1
    template_id := 20
    template_inputs := [("cpu", "2")]
    user_group := "old-group"
    per_provider_max_retries := 3
    max_providers := none
    timeout := 14400
    per_provider_timeout := 1440
    keep_last_attempt := false
    target_provider_name := none
    target_region_name := none
    user_group_issuer := "https://issuer.example"
    status := DeploymentStatus.CREATE_IN_PROGRESS
    template_outputs := none
    target_iaas_project := none
    im_infrastructure_id := none
    status_reason := none
    task := DeploymentTask.template_validation }

/-- A template insert row whose mandatory `content` value is `None`, so the
insert fails with a NOT NULL violation. -/
def contentlessTemplateRow : Row :=
  [("id", PyVal.uuid 7),
   ("content", PyVal.none),
   ("hash_content", PyVal.str "deadbeef"),
   ("created_by_id", PyVal.uuid 1),
   ("updated_by_id", PyVal.uuid 1)]

/-- A template row already stored when the duplicate upload arrives; its
content hash is the digest of the same document content. -/
def existingTemplateRow : Row :=
  template_row id 1 "tosca_definitions_version: v1" none none none none 1

/-- A resource URL carrying a size, a filter parameter and a page parameter. -/
def sampleResourceUrl : URLRecord :=
  { base := "http://localhost/api/v1/deployments/"
    query := [("size", "5"), ("user_group", "ops"), ("page", "2")] }

/-! ## Claim theorems -/

/-- Helper: stripping `page` from a URL and re-adding it with a new value
changes nothing but the `page` parameter. -/
theorem onlyPageDiffers_include_after_remove (orig : URLRecord) (n : Nat) :
    OnlyPageDiffers orig
      (include_query_params (remove_query_params orig "page") "page"
        (toString n)) n := by
  refine ⟨rfl, ?_, ?_⟩
  · simp only [nonPageParams, include_query_params, remove_query_params,
      List.filter_append, List.filter_filter]
    simp
  · simp only [include_query_params, remove_query_params,
      List.filter_append, List.filter_filter]
    simp

/-- C1: the claim says an external-policy check answered with HTTP 200 and
`result: true` is allowed with no error outcome.  The code disagrees: the 200
branch of `check_opa_authorization` has no `return`, so a truthy `result`
falls through to the unconditional raise and the check ends in the HTTP 500
unexpected-response-code error (an authorization-backend-failure outcome), in
contradiction with the function's own docstring, which promises `True` for an
authorized user. -/
theorem opa_200_true_result_raises_500 :
    check_opa_authorization (OpaResult.response 200 (some true)) =
      AuthDecision.httpError 500
        ("Authentication failed: OPA unexpected response code " ++ squote ++
          "200" ++ squote) := by
  decide

/-- C3: the claim describes the local-claim admin check denying a
non-allow-listed email with the uniform Forbidden outcome.  The code cannot
even be put in that mode: `AuthorizationMethodsEnum` has the single member
`opa`, so pydantic rejects `email`/`groups` as `AUTHZ_MODE` values, and
`has_admin_access` crashes with `AttributeError` the moment it evaluates
`AuthorizationMethodsEnum.email` for its membership test — for every settings
value and every policy-engine behaviour. -/
theorem local_claim_admin_check_is_unreachable :
    parse_authz_mode "email" = none ∧ parse_authz_mode "groups" = none ∧
      ∀ (s : SettingsModel) (opa : OpaResult),
        has_admin_access s opa = AuthDecision.attributeError "email" :=
  ⟨by decide, by decide, fun _ _ => rfl⟩

/-- C4 counterexample: a reserved range key with value `None` does produce a
predicate — `_handle_special_date_fields` never tests the value against
`None`, so `{created_before: None}` yields the predicate
`created_at <= NULL`, although the mapping has zero non-None values. -/
theorem get_conditions_none_date_key_counterexample :
    get_conditions deployment_columns [("created_before", PyVal.none)] =
        [FilterPred.le (some "created_at") PyVal.none] ∧
      (List.filter (fun kv => kv.2 ≠ PyVal.none)
        [(("created_before" : String), PyVal.none)]).length = 0 := by
  decide

/-- C4 amended: a key with value `None` that is not one of the reserved range
keys contributes no predicate, and the number of predicates returned by
`get_conditions` is at most the number of keys with non-None values plus the
number of reserved range keys in the mapping (each reserved key contributes
exactly one predicate regardless of its value, including `None`). -/
theorem get_conditions_none_bound (columns : List String)
    (kwargs : List (String × PyVal)) :
    (∀ k : String, List.lookup k date_field_map = none →
        get_conditions columns [(k, PyVal.none)] = []) ∧
      (get_conditions columns kwargs).length ≤
        (kwargs.filter (fun kv => kv.2 ≠ PyVal.none)).length +
          (kwargs.filter
            (fun kv => (List.lookup kv.1 date_field_map).isSome)).length := by
  constructor
  · intro k hk
    simp [get_conditions, handle_special_date_fields, hk, handle_generic_field]
  · induction kwargs with
    | nil => simp [get_conditions]
    | cons kv rest ih =>
      obtain ⟨k, v⟩ := kv
      have hs : (handle_special_date_fields columns k v).toList.length =
          if (List.lookup k date_field_map).isSome then 1 else 0 := by
        unfold handle_special_date_fields
        cases h : List.lookup k date_field_map with
        | none => simp
        | some p => simp
      have hg : (handle_generic_field columns k v).toList.length ≤
          if v = PyVal.none then 0 else 1 := by
        cases v <;> simp only [handle_generic_field] <;> split_ifs <;> simp_all
      have hlen : (get_conditions columns ((k, v) :: rest)).length =
          (handle_special_date_fields columns k v).toList.length +
            ((handle_generic_field columns k v).toList.length +
              (get_conditions columns rest).length) := by
        simp [get_conditions]
      have hfil1 : (List.filter (fun kv => kv.2 ≠ PyVal.none)
            ((k, v) :: rest)).length =
          (if v = PyVal.none then 0 else 1) +
            (List.filter (fun kv => kv.2 ≠ PyVal.none) rest).length := by
        by_cases hv : v = PyVal.none <;> simp [List.filter_cons, hv, Nat.add_comm]
      have hfil2 : (List.filter
            (fun kv => (List.lookup kv.1 date_field_map).isSome)
            ((k, v) :: rest)).length =
          (if (List.lookup k date_field_map).isSome then 1 else 0) +
            (List.filter (fun kv => (List.lookup kv.1 date_field_map).isSome)
              rest).length := by
        by_cases hd : (List.lookup k date_field_map).isSome <;>
          simp [List.filter_cons, hd, Nat.add_comm]
      rw [hlen, hfil1, hfil2]
      by_cases hv : v = PyVal.none <;>
        by_cases hd : (List.lookup k date_field_map).isSome = true
      · rw [if_pos hd] at hs
        rw [if_pos hv] at hg
        rw [if_pos hv, if_pos hd]
        omega
      · rw [if_neg hd] at hs
        rw [if_pos hv] at hg
        rw [if_pos hv, if_neg hd]
        omega
      · rw [if_pos hd] at hs
        rw [if_neg hv] at hg
        rw [if_neg hv, if_pos hd]
        omega
      · rw [if_neg hd] at hs
        rw [if_neg hv] at hg
        rw [if_neg hv, if_neg hd]
        omega

/-- C4 witness: concrete instances of the amended statement — a None-valued
plain field key yields no predicate, and the bound holds for a mapping with
one non-None key and one reserved key. -/
theorem get_conditions_none_bound_witness :
    get_conditions deployment_columns [("user_group", PyVal.none)] = [] ∧
      (get_conditions deployment_columns
        [("user_group", PyVal.str "ops"), ("created_before", PyVal.none)]).length ≤
        1 + 1 := by
  refine ⟨(get_conditions_none_bound deployment_columns []).1 "user_group"
    (by decide), ?_⟩
  have h := (get_conditions_none_bound deployment_columns
    [("user_group", PyVal.str "ops"), ("created_before", PyVal.none)]).2
  simpa using h

/-- C5: for page size at least 1, `total_pages` is 1 on an empty result set
and otherwise agrees with the exact rational ceiling of
`total_elements / size`. -/
theorem total_pages_is_ceiling (size tot : Nat) (hsize : 1 ≤ size) :
    (tot = 0 → total_pages size tot = 1) ∧
      (0 < tot → (total_pages size tot : ℤ) = ⌈(tot : ℚ) / (size : ℚ)⌉) := by
  constructor
  · intro h0
    subst h0
    have hlt : size - 1 < size := by omega
    simp [total_pages, ceil_div, Nat.div_eq_of_lt hlt]
  · intro hpos
    have hszpos : 0 < size := by omega
    have hd := Nat.div_add_mod (tot + size - 1) size
    have hm : (tot + size - 1) % size < size := Nat.mod_lt _ hszpos
    have hle : tot ≤ size * ((tot + size - 1) / size) := by omega
    have hlt2 : size * ((tot + size - 1) / size) < tot + size := by omega
    have hq1 : 1 ≤ (tot + size - 1) / size := by
      rcases Nat.eq_zero_or_pos ((tot + size - 1) / size) with h0 | h1
      · rw [h0, Nat.mul_zero] at hle
        omega
      · exact h1
    have htp : total_pages size tot = (tot + size - 1) / size := by
      unfold total_pages ceil_div
      rw [if_neg (by omega)]
    rw [htp, eq_comm, Int.ceil_eq_iff]
    have hsQ : (0 : ℚ) < (size : ℚ) := by exact_mod_cast hszpos
    simp only [Int.cast_natCast]
    constructor
    · rw [lt_div_iff₀ hsQ]
      have h2 : ((size : ℚ) * (((tot + size - 1) / size : ℕ) : ℚ)) <
          (tot : ℚ) + (size : ℚ) := by exact_mod_cast hlt2
      nlinarith
    · rw [div_le_iff₀ hsQ]
      have h3 : (tot : ℚ) ≤
          ((size : ℚ) * (((tot + size - 1) / size : ℕ) : ℚ)) := by
        exact_mod_cast hle
      nlinarith

/-- C5 witness: 12 elements at page size 5 make 3 pages, the rational ceiling
of 12/5. -/
theorem total_pages_is_ceiling_witness :
    total_pages 5 0 = 1 ∧ ((total_pages 5 12 : ℤ) = ⌈(12 : ℚ) / (5 : ℚ)⌉) :=
  ⟨(total_pages_is_ceiling 5 0 (by norm_num)).1 rfl,
    (total_pages_is_ceiling 5 12 (by norm_num)).2 (by norm_num)⟩

/-- C8: the claim says a second force-delete on the same deployment id yields
NotFound.  The code never deletes anything at all: `delete_deployment` passes
the filter kwarg `item`, `delete_item` resolves the nonexistent column `item`
to Python `None`, and `None == v` is the plain boolean `False`, so the where
clause matches no row.  Both the first and the second call return normally
with the store untouched — no NotFound, no crash, and no deletion. -/
theorem delete_deployment_force_twice_is_noop (store : List Row) (u : Nat) :
    delete_deployment store u true = (DeleteOutcome.ok, store) ∧
      delete_deployment (delete_deployment store u true).2 u true =
        (DeleteOutcome.ok, store) := by
  have h : ∀ s : List Row, delete_deployment s u true = (DeleteOutcome.ok, s) := by
    intro s
    unfold delete_deployment delete_item
    rw [if_pos rfl]
    exact congrArg (Prod.mk DeleteOutcome.ok)
      (List.filter_eq_self.mpr (fun a _ => rfl))
  refine ⟨h store, ?_⟩
  rw [h store]
  exact h store

/-- C9 counterexample: updating `exampleDeployment` (whose `updated_by_id` is
1) with a payload containing only `user_group`, on behalf of the user with id
2, also rewrites the stored updater reference — `update_deployment`
unconditionally passes `updated_by` to `update_item` — so a field other than
`user_group` and `updated_at` changes. -/
theorem update_deployment_changes_updated_by :
    (update_deployment 200 exampleDeployment
        { user_group := some "new-group" } { id := 2, issuer := "https://issuer.example" }).updated_by_id = 2 ∧
      exampleDeployment.updated_by_id = 1 := by
  decide

/-- C9 amended: updating a deployment with a payload containing only
`user_group` leaves every stored field except `user_group`, `updated_at` and
`updated_by` at its prior value; `user_group` takes the payload value when
present, `updated_at` the commit time, and `updated_by` the calling user. -/
theorem update_deployment_frame (now : Int) (d : Deployment)
    (new_data : DeploymentUpdate) (u : UserRec) :
    (update_deployment now d new_data u).id = d.id ∧
      (update_deployment now d new_data u).created_at = d.created_at ∧
      (update_deployment now d new_data u).created_by_id = d.created_by_id ∧
      (update_deployment now d new_data u).template_id = d.template_id ∧
      (update_deployment now d new_data u).template_inputs = d.template_inputs ∧
      (update_deployment now d new_data u).per_provider_max_retries =
        d.per_provider_max_retries ∧
      (update_deployment now d new_data u).max_providers = d.max_providers ∧
      (update_deployment now d new_data u).timeout = d.timeout ∧
      (update_deployment now d new_data u).per_provider_timeout =
        d.per_provider_timeout ∧
      (update_deployment now d new_data u).keep_last_attempt =
        d.keep_last_attempt ∧
      (update_deployment now d new_data u).target_provider_name =
        d.target_provider_name ∧
      (update_deployment now d new_data u).target_region_name =
        d.target_region_name ∧
      (update_deployment now d new_data u).user_group_issuer =
        d.user_group_issuer ∧
      (update_deployment now d new_data u).status = d.status ∧
      (update_deployment now d new_data u).template_outputs =
        d.template_outputs ∧
      (update_deployment now d new_data u).target_iaas_project =
        d.target_iaas_project ∧
      (update_deployment now d new_data u).im_infrastructure_id =
        d.im_infrastructure_id ∧
      (update_deployment now d new_data u).status_reason = d.status_reason ∧
      (update_deployment now d new_data u).task = d.task ∧
      (update_deployment now d new_data u).user_group =
        new_data.user_group.getD d.user_group ∧
      (update_deployment now d new_data u).updated_at = now ∧
      (update_deployment now d new_data u).updated_by_id = u.id := by
  obtain ⟨ug⟩ := new_data
  cases ug <;>
    simp [update_deployment, update_item_setattrs, Option.getD]

/-- C2: the claim says a Create whose insert hits a NOT NULL violation raises
a validation error and is never silently swallowed.  The code disagrees: the
NOT NULL branch of `raise_from_integrity_error` is commented out, so the
classifier matches nothing, raises nothing, and `add_item` falls off the end
of its `except` block — the call completes with no error (returning `None`)
while the storage failure is discarded, contradicting both functions' own
docstrings, which promise `NotNullError`. -/
theorem add_item_swallows_not_null_violation :
    template_insert_check [] contentlessTemplateRow =
        some (sqlite_err_header ++ "NOT NULL constraint failed: template.content") ∧
      add_item template_insert_check "Template" ⟨[], []⟩ contentlessTemplateRow =
        (AddResult.swallowed, ⟨[], []⟩) := by
  decide

/-- C6: every navigation link built by `PaginatedList.links` keeps the base
URL and every query parameter other than `page` (in particular `size` and the
filter parameters) exactly as they appear on the resource URL, and carries
`page` exactly once with the respective target page number. -/
theorem paginated_links_preserve_query_params (resource : URLRecord)
    (page_number page_size tot_items : Nat) :
    OnlyPageDiffers resource
        (paginated_list_links resource page_number page_size tot_items).first 1 ∧
      OnlyPageDiffers resource
        (paginated_list_links resource page_number page_size tot_items).last
        (total_pages page_size tot_items) ∧
      (∀ u, (paginated_list_links resource page_number page_size tot_items).prev =
          some u → OnlyPageDiffers resource u (page_number - 1)) ∧
      (∀ u, (paginated_list_links resource page_number page_size tot_items).next =
          some u → OnlyPageDiffers resource u (page_number + 1)) := by
  unfold paginated_list_links
  refine ⟨onlyPageDiffers_include_after_remove resource 1,
    onlyPageDiffers_include_after_remove resource _,
    fun u hu => ?_, fun u hu => ?_⟩
  · dsimp only at hu
    split at hu
    · injection hu with h
      subst h
      exact onlyPageDiffers_include_after_remove resource _
    · exact Option.noConfusion hu
  · dsimp only at hu
    split at hu
    · injection hu with h
      subst h
      exact onlyPageDiffers_include_after_remove resource _
    · exact Option.noConfusion hu

/-- C6 witness: on a resource URL with a size, a filter and a current page
parameter, the prev link computed for page 2 of a 12-element size-5 listing
keeps size and filter and carries `page=1`. -/
theorem paginated_links_preserve_query_params_witness :
    OnlyPageDiffers sampleResourceUrl
      { base := "http://localhost/api/v1/deployments/"
        query := [("size", "5"), ("user_group", "ops"), ("page", "1")] } 1 :=
  (paginated_links_preserve_query_params sampleResourceUrl 2 5 12).2.2.1 _ rfl

/-- C7: creating a second template whose content is identical to a stored one
— hence carrying the same derived content digest — makes the insert fail on
the unique `hash_content` column, and the classifier raises a Conflict whose
detail names the `hash_content` field together with the submitted digest
value: `Template with hash_content=<digest> already exists`.  Stated for
every digest function, every stored set of templates containing the
duplicate, and every fresh id. -/
theorem duplicate_template_hash_yields_conflict (hashFn : String → String)
    (sess : DBSession) (newId : Nat) (content : String)
    (nm ver tpt tdv : Option String) (createdBy : Nat)
    (hclean : sess.pending = [])
    (hdup : sess.committed.any
      (fun r => pyGet r "hash_content" == PyVal.str (hashFn content)) = true)
    (hfresh : sess.committed.any
      (fun r => pyGet r "id" == PyVal.uuid newId) = false) :
    (add_template hashFn sess newId content nm ver tpt tdv createdBy).1 =
      AddResult.raised (DomainError.conflict
        ("Template with hash_content=" ++ hashFn content ++ " already exists")) := by
  obtain ⟨committed, pending⟩ := sess
  dsimp only at hclean hdup hfresh
  subst hclean
  have hcheck : template_insert_check committed
      (template_row hashFn newId content nm ver tpt tdv createdBy) =
      some (sqlite_err_header ++ "UNIQUE constraint failed: template.hash_content") := by
    unfold template_insert_check
    rw [show (template_not_null_columns.find? (fun c =>
        pyGet (template_row hashFn newId content nm ver tpt tdv createdBy) c
          = PyVal.none)) = none from rfl]
    simp only [show pyGet (template_row hashFn newId content nm ver tpt tdv createdBy)
        "id" = PyVal.uuid newId from rfl,
      show pyGet (template_row hashFn newId content nm ver tpt tdv createdBy)
        "hash_content" = PyVal.str (hashFn content) from rfl,
      hdup, hfresh]
    simp
  have hcommit : session_commit template_insert_check
      (session_add ⟨committed, []⟩
        (template_row hashFn newId content nm ver tpt tdv createdBy)) =
      (some (sqlite_err_header ++ "UNIQUE constraint failed: template.hash_content"),
        ⟨committed, [template_row hashFn newId content nm ver tpt tdv createdBy]⟩) := by
    simp [session_commit, session_add, commit_rows, hcheck]
  show (add_item template_insert_check "Template" ⟨committed, []⟩
      (template_row hashFn newId content nm ver tpt tdv createdBy)).1 = _
  simp only [add_item, hcommit]
  rw [show raise_from_integrity_error "Template"
      (template_row hashFn newId content nm ver tpt tdv createdBy)
      (sqlite_err_header ++ "UNIQUE constraint failed: template.hash_content") =
      some (DomainError.conflict
        ("Template with hash_content=" ++ hashFn content ++ " already exists"))
      from rfl]

/-- C7 witness: with the identity map standing in for the digest, a store
holding one template of a given content and a second upload of the same
content produce the Conflict naming `hash_content` and the digest. -/
theorem duplicate_template_hash_yields_conflict_witness :
    ([existingTemplateRow].any
        (fun r => pyGet r "hash_content" ==
          PyVal.str (id "tosca_definitions_version: v1")) = true) ∧
      (add_template id ⟨[existingTemplateRow], []⟩ 2
          "tosca_definitions_version: v1" none none none none 1).1 =
        AddResult.raised (DomainError.conflict
          ("Template with hash_content=" ++ id "tosca_definitions_version: v1" ++
            " already exists")) :=
  ⟨by decide,
    duplicate_template_hash_yields_conflict id ⟨[existingTemplateRow], []⟩ 2
      "tosca_definitions_version: v1" none none none none 1 rfl (by decide)
      (by decide)⟩

/-- C10: whenever the insert of `add_item` raises an integrity error, the
first statement of `raise_from_integrity_error` rolls the session back before
any domain error can be raised, so the store is exactly the one before the
call, no pending row survives, and no entity is ever reported as created. -/
theorem add_item_integrity_error_preserves_store (check : IntegrityCheck)
    (entityName : String) (sess : DBSession) (kwargs : Row) (msg : String)
    (hclean : sess.pending = [])
    (hfail : check sess.committed kwargs = some msg) :
    (add_item check entityName sess kwargs).2 = sess ∧
      ∀ r : Row, (add_item check entityName sess kwargs).1 ≠ AddResult.created r := by
  obtain ⟨committed, pending⟩ := sess
  dsimp only at hclean hfail
  subst hclean
  have hcommit : session_commit check (session_add ⟨committed, []⟩ kwargs) =
      (some msg, ⟨committed, [kwargs]⟩) := by
    simp [session_commit, session_add, commit_rows, hfail]
  cases hcl : raise_from_integrity_error entityName kwargs msg <;>
    simp [add_item, hcommit, session_rollback, hcl]

/-- C10 witness: a check that always fails leaves an empty fresh session
exactly as it was. -/
theorem add_item_integrity_error_preserves_store_witness :
    ((fun _ _ => some "boom") : IntegrityCheck) [] [("x", PyVal.int 1)] =
        some "boom" ∧
      (add_item (fun _ _ => some "boom") "Widget" ⟨[], []⟩
        [("x", PyVal.int 1)]).2 = ⟨[], []⟩ :=
  ⟨rfl,
    (add_item_integrity_error_preserves_store (fun _ _ => some "boom") "Widget"
      ⟨[], []⟩ [("x", PyVal.int 1)] "boom" rfl rfl).1⟩

end Orchestrator
